import Mathlib

/-!
Shallow embedding of the AsyncioPySide6 wrapper (files
`AsyncioPySide6/nvd/performance.py`, `AsyncioPySide6/nvd/AsyncioPySide6.py`,
`AsyncioPySide6/nvd/config.py`) together with theorems checking the
natural-language specification against it.

Modelling conventions:
* Python floats that hold wall-clock times, durations and rates are modelled
  as rationals (ℚ).
* Python dicts keyed by task id are modelled as functions
  `String → Option TaskMetrics`.
* Raising an exception is modelled with `Except` or with an explicit outcome
  tag; the exception taxonomy (module `exceptions.py`) is a flat set of
  marker classes and is modelled as an enumeration.
-/

/-! ### Exception taxonomy (`nvd/exceptions.py`) -/

/-- Exception kinds raised by the library (`exceptions.py`); each Python class
is a bare marker deriving `AsyncioPySide6Error`, so an enumeration suffices. -/
inductive AsyncError
  | initializationError
  | eventLoopError
  | threadSafetyError
  | shutdownError
  | taskTimeoutError
  | taskExecutionError
  | resourceExhaustedError
  | configurationError
deriving DecidableEq, Repr

/-! ### Circuit breaker (`performance.py`, class `CircuitBreaker`) -/

/-- The `state` field of a `CircuitBreaker` (string tags in the source). -/
inductive CBState
  | CLOSED
  | OPEN
  | HALF_OPEN
deriving DecidableEq, Repr

/-- State of `CircuitBreaker.__init__`: configuration (`threshold`, `timeout`,
`recovery_time`) plus the mutable fields `failure_count`, `last_failure_time`
and `state`. -/
structure CircuitBreaker where
  threshold : Nat
  timeout : ℚ
  recovery_time : ℚ
  failure_count : Nat
  last_failure_time : ℚ
  state : CBState
deriving DecidableEq, Repr

/-- A freshly constructed breaker: `failure_count = 0`,
`last_failure_time = 0`, `state = "CLOSED"`. -/
def CircuitBreaker.mk0 (threshold : Nat) (timeout recovery_time : ℚ) : CircuitBreaker :=
  { threshold := threshold
    timeout := timeout
    recovery_time := recovery_time
    failure_count := 0
    last_failure_time := 0
    state := CBState.CLOSED }

/-- Outcome of one guarded call: the wrapped function returned, the wrapped
function raised and the breaker re-raised, or the breaker rejected the call
with `ResourceExhaustedError` before invoking the function. -/
inductive CBOutcome
  | success
  | failureRaised
  | rejected
deriving DecidableEq, Repr

/-- Result of `CircuitBreaker.call`: the outcome, how many times the wrapped
function was invoked (0 or 1), and the breaker state afterwards. -/
structure CBCallResult where
  outcome : CBOutcome
  invocations : Nat
  breaker : CircuitBreaker
deriving DecidableEq, Repr

/-- The `try`/`except` body of `CircuitBreaker.call` (run after the OPEN
gate).  `funcSucceeds` tells whether `func(*args, **kwargs)` returns normally
or raises. -/
def CircuitBreaker.attempt (cb : CircuitBreaker) (now : ℚ) (funcSucceeds : Bool) :
    CBCallResult :=
  if funcSucceeds then
    if cb.state = CBState.HALF_OPEN then
      { outcome := CBOutcome.success
        invocations := 1
        breaker := { cb with state := CBState.CLOSED, failure_count := 0 } }
    else
      { outcome := CBOutcome.success, invocations := 1, breaker := cb }
  else
    let fc := cb.failure_count + 1
    let cb1 : CircuitBreaker := { cb with failure_count := fc, last_failure_time := now }
    let cb2 : CircuitBreaker :=
      if cb1.threshold ≤ fc then { cb1 with state := CBState.OPEN } else cb1
    { outcome := CBOutcome.failureRaised, invocations := 1, breaker := cb2 }

/-- `CircuitBreaker.call`: if the state is OPEN, either move to HALF_OPEN
(when `time.time() - last_failure_time > recovery_time`) and attempt the call,
or raise `ResourceExhaustedError` without invoking the function; otherwise
attempt the call directly. -/
def CircuitBreaker.call (cb : CircuitBreaker) (now : ℚ) (funcSucceeds : Bool) :
    CBCallResult :=
  if cb.state = CBState.OPEN then
    if cb.recovery_time < now - cb.last_failure_time then
      CircuitBreaker.attempt { cb with state := CBState.HALF_OPEN } now funcSucceeds
    else
      { outcome := CBOutcome.rejected, invocations := 0, breaker := cb }
  else
    CircuitBreaker.attempt cb now funcSucceeds

/-- Fold a sequence of guarded calls (each event: wall-clock time of the call
and whether the wrapped function succeeds) through one breaker. -/
def CircuitBreaker.runCalls (cb : CircuitBreaker) : List (ℚ × Bool) → CircuitBreaker
  | [] => cb
  | e :: es => ((cb.call e.1 e.2).breaker).runCalls es

/-- Number of events in a call sequence whose wrapped function fails. -/
def failuresIn (evs : List (ℚ × Bool)) : Nat :=
  (evs.filter (fun e => !e.2)).length

/-! ### Performance metrics and health status (`performance.py`) -/

/-- The dataclass `PerformanceMetrics` (one sample in the ring buffer). -/
structure PerformanceMetrics where
  timestamp : ℚ
  active_tasks : Nat
  memory_usage_mb : ℚ
  memory_percentage : ℚ
  event_loop_latency_ms : ℚ
  task_completion_rate : ℚ
  error_rate : ℚ
  cpu_usage_percentage : ℚ
deriving DecidableEq, Repr

/-- The dataclass `TaskMetrics` (one task record). -/
structure TaskMetrics where
  task_id : String
  start_time : ℚ
  end_time : Option ℚ := none
  execution_time : Option ℚ := none
  success : Option Bool := none
  error : Option String := none
deriving DecidableEq, Repr

/-- The memory-fraction computation of `PerformanceMonitor._collect_metrics`:
`memory_percentage = memory_info.rss / psutil.virtual_memory().total`
(note: no multiplication by 100 — the stored value is a fraction in [0,1]). -/
def collect_memory_percentage (rss total : ℚ) : ℚ :=
  rss / total

/-- A sample as produced by `_collect_metrics`, abstracted over the measured
memory fraction and the computed error rate; the remaining fields are not
read by the health-status decision. -/
def collectedSample (ts : ℚ) (active : Nat) (memFraction errRate : ℚ) :
    PerformanceMetrics :=
  { timestamp := ts
    active_tasks := active
    memory_usage_mb := 0
    memory_percentage := memFraction
    event_loop_latency_ms := 0
    task_completion_rate := 0
    error_rate := errRate
    cpu_usage_percentage := 0 }

/-- The status/message decision of `PerformanceMonitor.get_health_status`
applied to the latest valid sample (`performance.py` lines 316-327):
`critical` when `memory_percentage > 90`, `warning` when
`memory_percentage > 80`, `warning` when `error_rate > 0.1`, else
`healthy`. -/
def health_status_from_latest (latest : PerformanceMetrics) : String × String :=
  if 90 < latest.memory_percentage then
    ("critical", "Memory usage critical")
  else if 80 < latest.memory_percentage then
    ("warning", "Memory usage high")
  else if 1 / 10 < latest.error_rate then
    ("warning", "High error rate")
  else
    ("healthy", "All systems operational")

/-! ### Configuration validation (`config.py`) -/

/-- The fields of `AsyncioPySide6Config` that `_validate_config` reads,
with the source's default values. -/
structure AsyncioPySide6Config where
  event_loop_interval : ℚ := 1 / 100
  idle_sleep_time : ℚ := 1 / 100
  initialization_timeout : ℚ := 5
  shutdown_timeout : ℚ := 10
  task_timeout : ℚ := 30
  max_retries : Int := 3
  retry_delay : ℚ := 1 / 10
  max_concurrent_tasks : Int := 100
  task_queue_size : Int := 1000
deriving DecidableEq, Repr

/-- `AsyncioPySide6Config._validate_config`, run by `__post_init__` at
construction time: raises `ValueError` with the given message when a check
fails, otherwise returns.  Note that `max_retries` and `retry_delay` are only
required to be non-negative, and that no other field is validated. -/
def validate_config (c : AsyncioPySide6Config) : Except String Unit :=
  if c.event_loop_interval ≤ 0 then
    Except.error "event_loop_interval must be positive"
  else if c.idle_sleep_time ≤ 0 then
    Except.error "idle_sleep_time must be positive"
  else if c.initialization_timeout ≤ 0 then
    Except.error "initialization_timeout must be positive"
  else if c.shutdown_timeout ≤ 0 then
    Except.error "shutdown_timeout must be positive"
  else if c.task_timeout ≤ 0 then
    Except.error "task_timeout must be positive"
  else if c.max_retries < 0 then
    Except.error "max_retries must be non-negative"
  else if c.retry_delay < 0 then
    Except.error "retry_delay must be non-negative"
  else if c.max_concurrent_tasks ≤ 0 then
    Except.error "max_concurrent_tasks must be positive"
  else if c.task_queue_size ≤ 0 then
    Except.error "task_queue_size must be positive"
  else
    Except.ok ()

/-- The default configuration with `retry_delay` set to `0`. -/
def configRetryDelayZero : AsyncioPySide6Config :=
  { retry_delay := 0 }

/-- The default configuration with `max_retries` set to `0`. -/
def configMaxRetriesZero : AsyncioPySide6Config :=
  { max_retries := 0 }

/-! ### Performance monitor bookkeeping (`performance.py`, `PerformanceMonitor`) -/

/-- The monitor state touched by task bookkeeping and cleanup:
`metrics_history` (ring buffer of samples, capacity 1000), the dict
`task_metrics`, and the rolling counters `_task_count` / `_error_count`.
The dict is modelled as a function from task id to optional record. -/
structure MonitorState where
  metrics_history : List PerformanceMetrics
  task_metrics : String → Option TaskMetrics
  task_count : Nat
  error_count : Nat

/-- `PerformanceMonitor.record_task_start`: store a fresh `TaskMetrics` under
`task_id` and increment `_task_count`. -/
def record_task_start (mon : MonitorState) (tid : String) (now : ℚ) : MonitorState :=
  { mon with
    task_metrics := fun k =>
      if k = tid then some { task_id := tid, start_time := now } else mon.task_metrics k
    task_count := mon.task_count + 1 }

/-- `PerformanceMonitor.record_task_completion`: when `task_id` is present,
stamp `end_time`, compute `execution_time`, set `success` and `error`, and
increment `_error_count` when the task failed; otherwise do nothing. -/
def record_task_completion (mon : MonitorState) (tid : String) (now : ℚ)
    (success : Bool) (err : Option String) : MonitorState :=
  match mon.task_metrics tid with
  | none => mon
  | some m =>
    let m1 : TaskMetrics :=
      { m with
        end_time := some now
        execution_time := some (now - m.start_time)
        success := some success
        error := err }
    { mon with
      task_metrics := fun k => if k = tid then some m1 else mon.task_metrics k
      error_count := if success then mon.error_count else mon.error_count + 1 }

/-- `PerformanceMonitor.cleanup_old_metrics`: with `cutoff_time =
current_time - 3600`, keep a task record iff `end_time is None or end_time >
cutoff_time`, and keep a sample iff its `timestamp > cutoff_time`. -/
def cleanup_old_metrics (now : ℚ) (mon : MonitorState) : MonitorState :=
  let cutoff := now - 3600
  { mon with
    task_metrics := fun k =>
      match mon.task_metrics k with
      | none => none
      | some m =>
        match m.end_time with
        | none => some m
        | some t => if cutoff < t then some m else none
    metrics_history := mon.metrics_history.filter (fun m => decide (cutoff < m.timestamp)) }

/-! ### Façade lifecycle (`AsyncioPySide6.py`) -/

/-- The instance state of the `AsyncioPySide6` singleton that the lifecycle
methods read and write: `_initialized`, `_shutdown_called`,
`_performance_monitoring`, `_active_tasks`, plus the configuration flag
`enable_performance_monitoring` consulted by `_internal_enter`. -/
structure LifecycleState where
  initialized : Bool
  shutdown_called : Bool
  performance_monitoring : Bool
  active_tasks : List String
  enable_performance_monitoring : Bool
deriving DecidableEq, Repr

/-- `AsyncioPySide6._start_performance_monitoring`: when monitoring is
enabled by configuration and not yet running, mark `_performance_monitoring`
as `True` (the method catches every exception from the underlying start and
still sets the flag). -/
def start_performance_monitoring_flag (st : LifecycleState) : LifecycleState :=
  if st.enable_performance_monitoring ∧ ¬ st.performance_monitoring then
    { st with performance_monitoring := true }
  else st

/-- `AsyncioPySide6._stop_performance_monitoring`: when monitoring is marked
running, mark it stopped (exceptions from the underlying stop are caught). -/
def stop_performance_monitoring_flag (st : LifecycleState) : LifecycleState :=
  if st.performance_monitoring then
    { st with performance_monitoring := false }
  else st

/-- `AsyncioPySide6._internal_enter` (acquire): raise `InitializationError`
when `_shutdown_called` is set; otherwise optionally start performance
monitoring and set `_initialized = True`.  No other condition makes it
fail — in particular it does not check `_initialized`. -/
def internal_enter (st : LifecycleState) : Except AsyncError LifecycleState :=
  if st.shutdown_called then
    Except.error AsyncError.initializationError
  else
    let st1 := if st.enable_performance_monitoring then start_performance_monitoring_flag st else st
    Except.ok { st1 with initialized := true }

/-- `AsyncioPySide6._internal_shutdown` (release): stop performance
monitoring when running, discard every active task, set `_shutdown_called`,
and return `True`; the whole body is wrapped in `try`/`except` returning
`False`, so it never raises (no step of the pure model can fail). -/
def internal_shutdown (st : LifecycleState) : Bool × LifecycleState :=
  let st1 := if st.performance_monitoring then stop_performance_monitoring_flag st else st
  let st2 := { st1 with active_tasks := [] }
  let st3 := { st2 with shutdown_called := true }
  (true, st3)

/-! ### Task submission (`AsyncioPySide6._internal_runTask`) -/

/-- Whether a call to `_internal_runTask` returns normally or raises
`EventLoopError` (the only exception its `except` clause re-raises). -/
inductive RunOutcome
  | returnedNormally
  | raisedEventLoopError
deriving DecidableEq, Repr

/-- Result of `_internal_runTask`: the outcome visible to the caller, the
monitor state, the `_active_tasks` set, and whether `asyncio.ensure_future`
was reached (i.e. the coroutine was actually scheduled). -/
structure RunTaskResult where
  outcome : RunOutcome
  monitor : MonitorState
  active_tasks : List String
  scheduled : Bool

/-- `_active_tasks.add(tid)` on the set modelled as a duplicate-free list. -/
def addTask (active : List String) (tid : String) : List String :=
  if tid ∈ active then active else active ++ [tid]

/-- `_active_tasks.discard(tid)`. -/
def discardTask (active : List String) (tid : String) : List String :=
  active.filter (fun t => t ≠ tid)

/-- `AsyncioPySide6._internal_runTask`: record the task start and add it to
`_active_tasks`; if no event loop is running, record the task as failed with
error `"No event loop"`, discard it, and return normally; otherwise schedule
the coroutine with `asyncio.ensure_future` (when that raises, the `except`
clause raises `EventLoopError`). -/
def internal_runTask (mon : MonitorState) (active : List String) (tid : String)
    (now : ℚ) (hasEventLoop scheduleRaises : Bool) : RunTaskResult :=
  let mon1 := record_task_start mon tid now
  let active1 := addTask active tid
  if hasEventLoop = false then
    { outcome := RunOutcome.returnedNormally
      monitor := record_task_completion mon1 tid now false (some "No event loop")
      active_tasks := discardTask active1 tid
      scheduled := false }
  else if scheduleRaises then
    { outcome := RunOutcome.raisedEventLoopError
      monitor := mon1
      active_tasks := active1
      scheduled := false }
  else
    { outcome := RunOutcome.returnedNormally
      monitor := mon1
      active_tasks := active1
      scheduled := true }

/-! ### Retry wrapper (`AsyncioPySide6.runTaskWithRetry`) -/

/-- Outcome of the `retry_wrapper` coroutine.  `succeeded i s` means an
attempt returned normally after `i` factory invocations and `s` intermediate
`asyncio.sleep(retry_delay)` suspensions, and the task was recorded
successful; `exhausted i s e` means every attempt failed, `i` invocations and
`s` suspensions happened, the task was recorded failed with error text `e`
(the last failure), and `TaskExecutionError` was raised. -/
inductive RetryOutcome
  | succeeded (invocations sleeps : Nat)
  | exhausted (invocations sleeps : Nat) (lastError : String)
deriving DecidableEq, Repr

/-- The loop `for attempt in range(max_retries + 1)` of `retry_wrapper`,
started at attempt index `attempt`.  The factory is modelled by `fac`:
`fac i = none` when the i-th invocation's coroutine returns normally and
`fac i = some e` when it raises with message `e`.  On failure, when
`attempt < max_retries` the wrapper sleeps and continues; otherwise it
records the failure and raises `TaskExecutionError`. -/
def retryGo (fac : Nat → Option String) (max_retries : Nat) (attempt : Nat) :
    RetryOutcome :=
  match fac attempt with
  | none => RetryOutcome.succeeded 1 0
  | some e =>
    if _h : attempt < max_retries then
      match retryGo fac max_retries (attempt + 1) with
      | RetryOutcome.succeeded i s => RetryOutcome.succeeded (i + 1) (s + 1)
      | RetryOutcome.exhausted i s err => RetryOutcome.exhausted (i + 1) (s + 1) err
    else
      RetryOutcome.exhausted 1 0 e
termination_by max_retries - attempt
decreasing_by omega

/-- The whole `retry_wrapper` body: run the attempt loop from index 0. -/
def retryRun (fac : Nat → Option String) (max_retries : Nat) : RetryOutcome :=
  retryGo fac max_retries 0

/-! ### Progress wrapper (`AsyncioPySide6.runTaskWithProgress`) -/

/-- Events emitted sequentially by the `progress_wrapper` coroutine:
a `safe_progress_callback(v)` call, the wrapped coroutine completing, or the
wrapped coroutine raising. -/
inductive ProgressEvent
  | callback (value : ℚ)
  | bodyCompleted
  | bodyRaised
deriving DecidableEq, Repr

/-- `progress_wrapper`: call the progress callback with `0.0`, await the
coroutine, call the callback with `1.0` on the success path, record success;
on the exception path call the callback with `1.0` anyway, record failure and
re-raise.  Returns the emitted event trace and whether the task was recorded
successful. -/
def progress_wrapper (bodySucceeds : Bool) : List ProgressEvent × Bool :=
  if bodySucceeds then
    ([ProgressEvent.callback 0] ++ [ProgressEvent.bodyCompleted]
      ++ [ProgressEvent.callback 1], true)
  else
    ([ProgressEvent.callback 0] ++ [ProgressEvent.bodyRaised]
      ++ [ProgressEvent.callback 1], false)

/-- The callback values contained in a progress-event trace, in order. -/
def callbackValues (trace : List ProgressEvent) : List ℚ :=
  trace.filterMap (fun e =>
    match e with
    | ProgressEvent.callback v => some v
    | _ => none)

/-- The `AsyncioPySide6` singleton in a live state: acquired (initialized),
not shut down, with performance monitoring disabled by configuration. -/
def liveState : LifecycleState :=
  { initialized := true
    shutdown_called := false
    performance_monitoring := false
    active_tasks := []
    enable_performance_monitoring := false }

/-- A task record whose completion time is exactly one hour before a purge
performed at time 10000. -/
def boundaryRecord : TaskMetrics :=
  { task_id := "t1"
    start_time := 6000
    end_time := some 6400
    execution_time := some 400
    success := some true
    error := none }

/-- A monitor holding only `boundaryRecord` under key `"t1"`. -/
def boundaryMonitor : MonitorState :=
  { metrics_history := []
    task_metrics := fun k => if k = "t1" then some boundaryRecord else none
    task_count := 1
    error_count := 0 }

/-- A task record completed 2 hours before a purge performed at time 10000. -/
def staleRecord : TaskMetrics :=
  { task_id := "old"
    start_time := 2700
    end_time := some 2800
    execution_time := some 100
    success := some true
    error := none }

/-- A task record completed 50 seconds before a purge at time 10000. -/
def freshRecord : TaskMetrics :=
  { task_id := "fresh"
    start_time := 9900
    end_time := some 9950
    execution_time := some 50
    success := some true
    error := none }

/-- A performance sample taken 2 hours before a purge at time 10000. -/
def staleSample : PerformanceMetrics :=
  collectedSample 2800 0 0 0

/-- A monitor holding `staleRecord`, `freshRecord` and `staleSample`. -/
def scenarioMonitor : MonitorState :=
  { metrics_history := [staleSample]
    task_metrics := fun k =>
      if k = "old" then some staleRecord
      else if k = "fresh" then some freshRecord
      else none
    task_count := 2
    error_count := 0 }

/-- A breaker that has just tripped: 2 failures against threshold 2, OPEN,
last failure at time 5. -/
def cbOpen : CircuitBreaker :=
  { threshold := 2
    timeout := 60
    recovery_time := 300
    failure_count := 2
    last_failure_time := 5
    state := CBState.OPEN }

/-- A breaker in the HALF_OPEN trial state with 2 accumulated failures. -/
def cbHalf : CircuitBreaker :=
  { threshold := 3
    timeout := 60
    recovery_time := 300
    failure_count := 2
    last_failure_time := 5
    state := CBState.HALF_OPEN }

/-- A freshly constructed breaker with threshold 3. -/
def cbClosed : CircuitBreaker :=
  CircuitBreaker.mk0 3 60 300

/-!
## Helper lemmas

Shared facts about the embedded operations, used by several claim theorems.
-/

theorem attempt_fail_fields (cb : CircuitBreaker) (now : ℚ) :
    (CircuitBreaker.attempt cb now false).outcome = CBOutcome.failureRaised ∧
    (CircuitBreaker.attempt cb now false).invocations = 1 ∧
    (CircuitBreaker.attempt cb now false).breaker.failure_count = cb.failure_count + 1 ∧
    (CircuitBreaker.attempt cb now false).breaker.last_failure_time = now := by
  simp only [CircuitBreaker.attempt, Bool.false_eq_true, if_false]
  split <;> simp

theorem attempt_invocations (cb : CircuitBreaker) (now : ℚ) (s : Bool) :
    (CircuitBreaker.attempt cb now s).invocations = 1 := by
  cases s
  · exact (attempt_fail_fields cb now).2.1
  · simp only [CircuitBreaker.attempt, if_true]
    split <;> rfl

theorem call_closed_success (cb : CircuitBreaker) (now : ℚ)
    (h : cb.state = CBState.CLOSED) :
    cb.call now true = ⟨CBOutcome.success, 1, cb⟩ := by
  simp [CircuitBreaker.call, CircuitBreaker.attempt, h]

theorem call_closed_fail (cb : CircuitBreaker) (now : ℚ)
    (h : cb.state = CBState.CLOSED) :
    cb.call now false =
      ⟨CBOutcome.failureRaised, 1,
        if cb.threshold ≤ cb.failure_count + 1 then
          { cb with
            failure_count := cb.failure_count + 1
            last_failure_time := now
            state := CBState.OPEN }
        else
          { cb with
            failure_count := cb.failure_count + 1
            last_failure_time := now } ⟩ := by
  simp only [CircuitBreaker.call, CircuitBreaker.attempt, h]
  split <;> simp_all

theorem failuresIn_cons (e : ℚ × Bool) (es : List (ℚ × Bool)) :
    failuresIn (e :: es) = (if e.2 = false then 1 else 0) + failuresIn es := by
  cases he : e.2 <;> simp [failuresIn, List.filter_cons, he, Nat.add_comm]

theorem failuresIn_append (l1 l2 : List (ℚ × Bool)) :
    failuresIn (l1 ++ l2) = failuresIn l1 + failuresIn l2 := by
  simp [failuresIn, List.filter_append]

theorem runCalls_nil (cb : CircuitBreaker) : cb.runCalls [] = cb := rfl

theorem runCalls_cons (cb : CircuitBreaker) (e : ℚ × Bool) (es : List (ℚ × Bool)) :
    cb.runCalls (e :: es) = ((cb.call e.1 e.2).breaker).runCalls es := rfl

theorem runCalls_append (cb : CircuitBreaker) (l1 l2 : List (ℚ × Bool)) :
    cb.runCalls (l1 ++ l2) = (cb.runCalls l1).runCalls l2 := by
  induction l1 generalizing cb with
  | nil => rfl
  | cons e es ih => simp [runCalls_cons, ih]

theorem runCalls_closed_under_threshold :
    ∀ (evs : List (ℚ × Bool)) (cb : CircuitBreaker),
      cb.state = CBState.CLOSED →
      cb.failure_count + failuresIn evs < cb.threshold →
      (cb.runCalls evs).state = CBState.CLOSED ∧
      (cb.runCalls evs).failure_count = cb.failure_count + failuresIn evs ∧
      (cb.runCalls evs).threshold = cb.threshold := by
  intro evs
  induction evs with
  | nil =>
    intro cb h1 h2
    simp [runCalls_nil, h1, failuresIn]
  | cons e es ih =>
    intro cb h1 h2
    rw [runCalls_cons]
    cases he : e.2 with
    | true =>
      rw [call_closed_success cb e.1 h1]
      have hf : failuresIn (e :: es) = failuresIn es := by
        rw [failuresIn_cons, he]; simp
      rw [hf] at h2 ⊢
      exact ih cb h1 h2
    | false =>
      rw [call_closed_fail cb e.1 h1]
      have hf : failuresIn (e :: es) = 1 + failuresIn es := by
        rw [failuresIn_cons, he]; simp
      rw [hf] at h2
      have hlt : ¬ cb.threshold ≤ cb.failure_count + 1 := by omega
      rw [if_neg hlt]
      have := ih
        { cb with failure_count := cb.failure_count + 1, last_failure_time := e.1 }
        h1 (by simp; omega)
      refine ⟨this.1, ?_, ?_⟩
      · rw [this.2.1]; simp; omega
      · rw [this.2.2]

theorem runCalls_open_at_threshold (t : Nat) (tmo r : ℚ) (evs : List (ℚ × Bool))
    (_h1 : 1 ≤ t) (h2 : failuresIn evs = t)
    (h3 : ∃ p, evs.getLast? = some p ∧ p.2 = false) :
    ((CircuitBreaker.mk0 t tmo r).runCalls evs).state = CBState.OPEN := by
  obtain ⟨p, hlast, hp⟩ := h3
  rcases List.eq_nil_or_concat' evs with hnil | ⟨l1, b, rfl⟩
  · subst hnil; simp at hlast
  · have hb : b = p := by
      rw [List.getLast?_concat] at hlast
      exact (Option.some_injective _ hlast)
    subst hb
    rw [runCalls_append]
    have hfl : failuresIn l1 + 1 = t := by
      have : failuresIn (l1 ++ [b]) = failuresIn l1 + 1 := by
        rw [failuresIn_append]
        simp [failuresIn, List.filter_cons, hp]
      omega
    have hmid := runCalls_closed_under_threshold l1 (CircuitBreaker.mk0 t tmo r)
      rfl (by simp [CircuitBreaker.mk0]; omega)
    set mid := (CircuitBreaker.mk0 t tmo r).runCalls l1 with hmdef
    rw [runCalls_cons]
    have hcall := call_closed_fail mid b.1 hmid.1
    have hcnt : mid.threshold ≤ mid.failure_count + 1 := by
      rw [hmid.2.1, hmid.2.2]
      simp [CircuitBreaker.mk0]
      omega
    rw [show b = (b.1, b.2) from rfl, hp] at hcall ⊢
    rw [hcall, if_pos hcnt]
    rfl

/-!
## Claim theorems
-/

/-- Claim C4: for every circuit breaker and every sequence of guarded calls:
starting CLOSED, reaching the configured threshold of failures transitions
the breaker to OPEN; a call while OPEN before the recovery time has elapsed
since the last failure is rejected with `ResourceExhaustedError` without
invoking the wrapped function; a call while OPEN after the recovery time has
elapsed transitions to HALF_OPEN and attempts the call; a success while
HALF_OPEN transitions to CLOSED with failure count reset to zero; every
failure increments the failure count, records the failure timestamp, and
re-raises the original exception. -/
theorem circuit_breaker_call_spec_C4 :
    (∀ (t : Nat) (tmo r : ℚ) (evs : List (ℚ × Bool)),
        1 ≤ t → evs.length = t → (∀ e ∈ evs, e.2 = false) →
        ((CircuitBreaker.mk0 t tmo r).runCalls evs).state = CBState.OPEN)
  ∧ (∀ (cb : CircuitBreaker) (now : ℚ) (s : Bool),
        cb.state = CBState.OPEN → now - cb.last_failure_time ≤ cb.recovery_time →
        cb.call now s = ⟨CBOutcome.rejected, 0, cb⟩)
  ∧ (∀ (cb : CircuitBreaker) (now : ℚ) (s : Bool),
        cb.state = CBState.OPEN → cb.recovery_time < now - cb.last_failure_time →
        (cb.call now s).invocations = 1 ∧
        cb.call now s = CircuitBreaker.attempt { cb with state := CBState.HALF_OPEN } now s)
  ∧ (∀ (cb : CircuitBreaker) (now : ℚ),
        cb.state = CBState.HALF_OPEN →
        (cb.call now true).outcome = CBOutcome.success ∧
        (cb.call now true).breaker.state = CBState.CLOSED ∧
        (cb.call now true).breaker.failure_count = 0)
  ∧ (∀ (cb : CircuitBreaker) (now : ℚ),
        ¬ (cb.state = CBState.OPEN ∧ now - cb.last_failure_time ≤ cb.recovery_time) →
        (cb.call now false).outcome = CBOutcome.failureRaised ∧
        (cb.call now false).breaker.failure_count = cb.failure_count + 1 ∧
        (cb.call now false).breaker.last_failure_time = now) := by
  refine ⟨?_, ?_, ?_, ?_, ?_⟩
  · intro t tmo r evs h1 hlen hall
    have hne : evs ≠ [] := by
      intro h; subst h; simp at hlen; omega
    refine runCalls_open_at_threshold t tmo r evs h1 ?_ ?_
    · have : evs.filter (fun e => !e.2) = evs :=
        List.filter_eq_self.mpr (fun e he => by simp [hall e he])
      rw [failuresIn, this, hlen]
    · refine ⟨evs.getLast hne, List.getLast?_eq_getLast_of_ne_nil hne, ?_⟩
      exact hall _ (List.getLast_mem hne)
  · intro cb now s h1 h2
    simp [CircuitBreaker.call, h1, not_lt.mpr h2]
  · intro cb now s h1 h2
    constructor
    · simp only [CircuitBreaker.call, h1, if_pos rfl, if_pos h2]
      exact attempt_invocations _ now s
    · simp [CircuitBreaker.call, h1, h2]
  · intro cb now h1
    have hne : cb.state ≠ CBState.OPEN := by rw [h1]; intro h; cases h
    simp [CircuitBreaker.call, hne, CircuitBreaker.attempt, h1]
  · intro cb now h1
    by_cases hst : cb.state = CBState.OPEN
    · have hrec : cb.recovery_time < now - cb.last_failure_time := by
        by_contra hn
        exact h1 ⟨hst, not_lt.mp hn⟩
      have hcall : cb.call now false =
          CircuitBreaker.attempt { cb with state := CBState.HALF_OPEN } now false := by
        simp [CircuitBreaker.call, hst, hrec]
      rw [hcall]
      have := attempt_fail_fields { cb with state := CBState.HALF_OPEN } now
      exact ⟨this.1, this.2.2.1, this.2.2.2⟩
    · have hcall : cb.call now false = CircuitBreaker.attempt cb now false := by
        simp [CircuitBreaker.call, hst]
      rw [hcall]
      have := attempt_fail_fields cb now
      exact ⟨this.1, this.2.2.1, this.2.2.2⟩

/-- Claim C4 witness: the properties of `circuit_breaker_call_spec_C4`
evaluated at concrete breakers: two consecutive failures trip a fresh
threshold-2 breaker; an OPEN breaker rejects a call 95 seconds after the
last failure (recovery 300); a call 395 seconds after invokes the function;
a HALF_OPEN success closes the breaker and clears the count; a HALF_OPEN
failure increments the count and stamps the time. -/
theorem circuit_breaker_call_spec_C4_witness :
    ((CircuitBreaker.mk0 2 60 300).runCalls [(1, false), (2, false)]).state = CBState.OPEN ∧
    cbOpen.call 100 true = ⟨CBOutcome.rejected, 0, cbOpen⟩ ∧
    (cbOpen.call 400 true).invocations = 1 ∧
    (cbHalf.call 7 true).breaker.state = CBState.CLOSED ∧
    (cbHalf.call 7 true).breaker.failure_count = 0 ∧
    (cbHalf.call 9 false).breaker.failure_count = cbHalf.failure_count + 1 ∧
    (cbHalf.call 9 false).breaker.last_failure_time = 9 := by
  obtain ⟨p1, p2, p3, p4, p5⟩ := circuit_breaker_call_spec_C4
  refine ⟨?_, ?_, ?_, ?_, ?_, ?_, ?_⟩
  · refine p1 2 60 300 [(1, false), (2, false)] (by norm_num) rfl ?_
    intro e he
    simp only [List.mem_cons, List.mem_singleton] at he
    rcases he with rfl | rfl | h
    · rfl
    · rfl
    · simp at h
  · exact p2 cbOpen 100 true rfl (by norm_num [cbOpen])
  · exact (p3 cbOpen 400 true rfl (by norm_num [cbOpen])).1
  · exact (p4 cbHalf 7 rfl).2.1
  · exact (p4 cbHalf 7 rfl).2.2
  · exact (p5 cbHalf 9 (by simp [cbHalf])).2.1
  · exact (p5 cbHalf 9 (by simp [cbHalf])).2.2

/-- Claim C10: a successful call in the CLOSED state leaves the breaker
(in particular its failure count and last-failure timestamp) unchanged; the
failure count decreases only through a success whose effective state is
HALF_OPEN (entered directly or through the recovery transition from OPEN);
hence once threshold-many total failures accumulate, even interleaved with
successful CLOSED calls, the breaker transitions to OPEN. -/
theorem circuit_breaker_closed_frame_C10 :
    (∀ (cb : CircuitBreaker) (now : ℚ), cb.state = CBState.CLOSED →
        cb.call now true = ⟨CBOutcome.success, 1, cb⟩)
  ∧ (∀ (cb : CircuitBreaker) (now : ℚ) (s : Bool),
        (cb.call now s).breaker.failure_count < cb.failure_count →
        s = true ∧ (cb.state = CBState.HALF_OPEN ∨
          (cb.state = CBState.OPEN ∧ cb.recovery_time < now - cb.last_failure_time)))
  ∧ (∀ (t : Nat) (tmo r : ℚ) (evs : List (ℚ × Bool)),
        1 ≤ t → failuresIn evs = t →
        (∃ p, evs.getLast? = some p ∧ p.2 = false) →
        ((CircuitBreaker.mk0 t tmo r).runCalls evs).state = CBState.OPEN) := by
  refine ⟨?_, ?_, ?_⟩
  · exact fun cb now h => call_closed_success cb now h
  · intro cb now s h
    by_cases hst : cb.state = CBState.OPEN
    · by_cases hrec : cb.recovery_time < now - cb.last_failure_time
      · cases s with
        | false =>
          have hcall : cb.call now false =
              CircuitBreaker.attempt { cb with state := CBState.HALF_OPEN } now false := by
            simp [CircuitBreaker.call, hst, hrec]
          rw [hcall, (attempt_fail_fields { cb with state := CBState.HALF_OPEN } now).2.2.1] at h
          simp only at h
          omega
        | true =>
          exact ⟨rfl, Or.inr ⟨hst, hrec⟩⟩
      · have hcall : cb.call now s = ⟨CBOutcome.rejected, 0, cb⟩ := by
          simp [CircuitBreaker.call, hst, hrec]
        rw [hcall] at h
        exact absurd h (lt_irrefl _)
    · have hcall : cb.call now s = CircuitBreaker.attempt cb now s := by
        simp [CircuitBreaker.call, hst]
      rw [hcall] at h
      cases s with
      | false =>
        rw [(attempt_fail_fields cb now).2.2.1] at h
        omega
      | true =>
        by_cases hh : cb.state = CBState.HALF_OPEN
        · exact ⟨rfl, Or.inl hh⟩
        · have hatt : CircuitBreaker.attempt cb now true = ⟨CBOutcome.success, 1, cb⟩ := by
            simp [CircuitBreaker.attempt, hh]
          rw [hatt] at h
          exact absurd h (lt_irrefl _)
  · intro t tmo r evs h1 h2 h3
    exact runCalls_open_at_threshold t tmo r evs h1 h2 h3

/-- Claim C10 witness: a successful CLOSED call at a fresh threshold-3
breaker is a no-op on the breaker; a HALF_OPEN success strictly lowers the
failure count (2 to 0) and is classified as such; a failure/success/failure
interleaving with threshold 2 ends OPEN. -/
theorem circuit_breaker_closed_frame_C10_witness :
    cbClosed.call 9 true = ⟨CBOutcome.success, 1, cbClosed⟩ ∧
    (true = true ∧ (cbHalf.state = CBState.HALF_OPEN ∨
      (cbHalf.state = CBState.OPEN ∧ cbHalf.recovery_time < 7 - cbHalf.last_failure_time))) ∧
    ((CircuitBreaker.mk0 2 60 300).runCalls [(1, false), (10, true), (20, false)]).state
      = CBState.OPEN := by
  obtain ⟨p1, p2, p3⟩ := circuit_breaker_closed_frame_C10
  refine ⟨?_, ?_, ?_⟩
  · exact p1 cbClosed 9 rfl
  · refine p2 cbHalf 7 true ?_
    show (cbHalf.call 7 true).breaker.failure_count < cbHalf.failure_count
    decide
  · refine p3 2 60 300 [(1, false), (10, true), (20, false)] (by norm_num) rfl ?_
    exact ⟨(20, false), rfl, rfl⟩

/-- Claim C1 (divergence exhibit): samples produced by `_collect_metrics`
store `memory_percentage` as the fraction `rss / total`, so a sample taken
with 95% (resp. 85%, 50%) of system memory in use carries
`memory_percentage = 0.95` (resp. `0.85`, `0.5`); compared against the
thresholds `90` and `80` of `get_health_status`, all three yield status
`healthy` — not `critical` / `warning` / `healthy` as the specification
states. -/
theorem health_status_fraction_scale_C1 :
    collect_memory_percentage 95 100 = 95 / 100 ∧
    (health_status_from_latest
      (collectedSample 0 0 (collect_memory_percentage 95 100) 0)).1 = "healthy" ∧
    (health_status_from_latest
      (collectedSample 0 0 (collect_memory_percentage 85 100) 0)).1 = "healthy" ∧
    (health_status_from_latest
      (collectedSample 0 0 (collect_memory_percentage 50 100) 0)).1 = "healthy" := by
  refine ⟨rfl, ?_, ?_, ?_⟩ <;>
    norm_num [health_status_from_latest, collectedSample, collect_memory_percentage]

/-- Claim C2 (divergence exhibit): `_internal_runTask` called with no active
event loop (the state before acquisition) returns normally — it does not
raise `EventLoopError`.  It records the task as failed with error text
`"No event loop"`, never schedules the coroutine, and leaves the task out of
the active set. -/
theorem runTask_no_event_loop_returns_C2 :
    ∀ (mon : MonitorState) (active : List String) (tid : String) (now : ℚ) (sr : Bool),
      (internal_runTask mon active tid now false sr).outcome = RunOutcome.returnedNormally ∧
      (internal_runTask mon active tid now false sr).scheduled = false ∧
      (internal_runTask mon active tid now false sr).monitor.task_metrics tid =
        some { task_id := tid
               start_time := now
               end_time := some now
               execution_time := some (now - now)
               success := some false
               error := some "No event loop" } ∧
      tid ∉ (internal_runTask mon active tid now false sr).active_tasks := by
  intro mon active tid now sr
  refine ⟨rfl, rfl, ?_, ?_⟩
  · simp [internal_runTask, record_task_start, record_task_completion]
  · simp [internal_runTask, discardTask, List.mem_filter]

/-- Claim C3 (divergence exhibit): `_internal_enter` invoked on a live,
already-initialized instance (initialized, not shut down) succeeds and
returns the state unchanged — it does not raise `InitializationError`; the
only failing situation is `_shutdown_called`. -/
theorem enter_while_live_succeeds_C3 :
    internal_enter liveState = Except.ok liveState ∧
    liveState.initialized = true ∧
    liveState.shutdown_called = false := by
  exact ⟨rfl, rfl, rfl⟩

/-- Claim C9: `_internal_shutdown` is idempotent — from any state, running it
twice never fails (the body is a total function returning `True`; the
source's catch-all turns any internal error into a `False` return rather
than an exception), and the second call returns `True` while leaving the
task and monitoring state exactly as the first call left it. -/
theorem shutdown_idempotent_C9 :
    ∀ st : LifecycleState,
      internal_shutdown (internal_shutdown st).2 = (true, (internal_shutdown st).2) := by
  intro st
  by_cases h : st.performance_monitoring <;>
    simp [internal_shutdown, stop_performance_monitoring_flag, h]

/-- Claim C6: the `progress_wrapper` trace is exactly the callback at `0.0`,
then the coroutine body (completing or raising), then the callback at `1.0`;
in particular the callback values emitted by the wrapper are `[0, 1]` in that
order for both the success and the failure path, and the task is recorded
successful exactly when the body completed. -/
theorem progress_wrapper_trace_C6 :
    ∀ b : Bool,
      (progress_wrapper b).1 =
        [ProgressEvent.callback 0,
         (if b then ProgressEvent.bodyCompleted else ProgressEvent.bodyRaised),
         ProgressEvent.callback 1] ∧
      callbackValues (progress_wrapper b).1 = [0, 1] ∧
      (progress_wrapper b).2 = b := by
  intro b
  cases b <;> exact ⟨rfl, rfl, rfl⟩

theorem retryGo_success_at (fac : Nat → Option String) (mr a : Nat)
    (h : fac a = none) :
    retryGo fac mr a = RetryOutcome.succeeded 1 0 := by
  rw [retryGo.eq_def, h]

theorem retryGo_fail_last (fac : Nat → Option String) (mr a : Nat) (e : String)
    (he : fac a = some e) (hge : ¬ a < mr) :
    retryGo fac mr a = RetryOutcome.exhausted 1 0 e := by
  rw [retryGo.eq_def, he]
  simp [hge]

theorem retryGo_all_fail (fac : Nat → Option String) (mr : Nat) :
    ∀ (k a : Nat), mr - a = k → a ≤ mr →
      (∀ i, a ≤ i → i ≤ mr → fac i ≠ none) →
      ∃ e, fac mr = some e ∧
        retryGo fac mr a = RetryOutcome.exhausted (mr + 1 - a) (mr - a) e := by
  intro k
  induction k with
  | zero =>
    intro a hk ha hf
    have haeq : a = mr := by omega
    subst haeq
    obtain ⟨e, he⟩ := Option.ne_none_iff_exists'.mp (hf a le_rfl le_rfl)
    refine ⟨e, he, ?_⟩
    rw [retryGo_fail_last fac a a e he (lt_irrefl a)]
    congr 1 <;> omega
  | succ k ih =>
    intro a hk ha hf
    have halt : a < mr := by omega
    obtain ⟨e, he⟩ := Option.ne_none_iff_exists'.mp (hf a le_rfl (by omega))
    obtain ⟨el, hel, hgo⟩ := ih (a + 1) (by omega) (by omega)
      (fun i h1 h2 => hf i (by omega) h2)
    refine ⟨el, hel, ?_⟩
    rw [retryGo.eq_def, he]
    simp only [dif_pos halt, hgo]
    congr 1 <;> omega

theorem retryGo_first_success (fac : Nat → Option String) (mr : Nat) :
    ∀ (k a j : Nat), j - a = k → a ≤ j → j ≤ mr →
      (∀ i, a ≤ i → i < j → fac i ≠ none) → fac j = none →
      retryGo fac mr a = RetryOutcome.succeeded (j + 1 - a) (j - a) := by
  intro k
  induction k with
  | zero =>
    intro a j hk ha hj hf hsucc
    have haeq : a = j := by omega
    subst haeq
    rw [retryGo_success_at fac mr a hsucc]
    congr 1 <;> omega
  | succ k ih =>
    intro a j hk ha hj hf hsucc
    have halt : a < j := by omega
    obtain ⟨e, he⟩ := Option.ne_none_iff_exists'.mp (hf a le_rfl halt)
    have hgo := ih (a + 1) j (by omega) (by omega) hj
      (fun i h1 h2 => hf i (by omega) h2) hsucc
    have hamr : a < mr := by omega
    rw [retryGo.eq_def, he]
    simp only [dif_pos hamr, hgo]
    congr 1 <;> omega

/-- Claim C5: `run_with_retry` re-invokes the factory until an attempt
succeeds, up to `max_retries + 1` total attempts, with one
`asyncio.sleep(retry_delay)` suspension between consecutive attempts: when
every attempt up to index `max_retries` fails, the loop performs exactly
`max_retries + 1` invocations and `max_retries` suspensions and ends with
the task recorded failed and a `TaskExecutionError` carrying the last
failure; when the first success is at attempt `j ≤ max_retries`, the loop
performs exactly `j + 1` invocations and `j` suspensions and records the
task successful. -/
theorem run_with_retry_attempts_C5 :
    (∀ (fac : Nat → Option String) (mr : Nat),
        (∀ i, i ≤ mr → fac i ≠ none) →
        ∃ e, fac mr = some e ∧
          retryRun fac mr = RetryOutcome.exhausted (mr + 1) mr e)
  ∧ (∀ (fac : Nat → Option String) (mr j : Nat),
        j ≤ mr → (∀ i, i < j → fac i ≠ none) → fac j = none →
        retryRun fac mr = RetryOutcome.succeeded (j + 1) j) := by
  constructor
  · intro fac mr hf
    obtain ⟨e, he, hgo⟩ := retryGo_all_fail fac mr mr 0 (by omega) (by omega)
      (fun i _ h2 => hf i h2)
    refine ⟨e, he, ?_⟩
    rw [retryRun, hgo]
    simp
  · intro fac mr j hj hf hsucc
    have hgo := retryGo_first_success fac mr j 0 j (by omega) (by omega) hj
      (fun i _ h2 => hf i h2) hsucc
    rw [retryRun, hgo]
    simp

/-- Claim C5 witness: with `max_retries = 3`, a factory failing on its first
two invocations and succeeding on the third yields a recorded success after
exactly 3 invocations and 2 suspensions; a factory that always fails with
`"boom"` yields, after exactly 4 invocations and 3 suspensions, a recorded
failure carrying `TaskExecutionError` over `"boom"`. -/
theorem run_with_retry_attempts_C5_witness :
    retryRun (fun i => if i < 2 then some "boom" else none) 3 =
      RetryOutcome.succeeded 3 2 ∧
    retryRun (fun _ => some "boom") 3 = RetryOutcome.exhausted 4 3 "boom" := by
  constructor
  · exact run_with_retry_attempts_C5.2 (fun i => if i < 2 then some "boom" else none) 3 2
      (by omega) (fun i hi => by simp [hi]) (by simp)
  · obtain ⟨e, he, hr⟩ := run_with_retry_attempts_C5.1 (fun _ => some "boom") 3
      (fun i _ => by simp)
    have : e = "boom" := by
      have := he.symm
      injection this
    rw [this] at hr
    exact hr

/-- Claim C7 counterexample: construction succeeds (validation returns
without error) for the default configuration with `retry_delay = 0` and for
the default configuration with `max_retries = 0`, although the claim states
that those non-positive duration/count values must fail validation. -/
theorem validate_config_zero_retry_ok_C7 :
    validate_config configRetryDelayZero = Except.ok () ∧
    validate_config configMaxRetriesZero = Except.ok () ∧
    configRetryDelayZero.retry_delay = 0 ∧
    configMaxRetriesZero.max_retries = 0 := by
  refine ⟨?_, ?_, rfl, rfl⟩ <;>
    norm_num [validate_config, configRetryDelayZero, configMaxRetriesZero]

/-- Claim C7 (amended): `_validate_config` succeeds exactly when the five
checked duration fields (`event_loop_interval`, `idle_sleep_time`,
`initialization_timeout`, `shutdown_timeout`, `task_timeout`) and the two
checked count fields (`max_concurrent_tasks`, `task_queue_size`) are
strictly positive and the retry fields (`max_retries`, `retry_delay`) are
non-negative — zero retry values are accepted, and no other field is
validated. -/
theorem validate_config_spec_C7 :
    ∀ c : AsyncioPySide6Config,
      validate_config c = Except.ok () ↔
        (0 < c.event_loop_interval ∧ 0 < c.idle_sleep_time ∧
         0 < c.initialization_timeout ∧ 0 < c.shutdown_timeout ∧
         0 < c.task_timeout ∧ 0 ≤ c.max_retries ∧ 0 ≤ c.retry_delay ∧
         0 < c.max_concurrent_tasks ∧ 0 < c.task_queue_size) := by
  intro c
  constructor
  · intro h
    rw [validate_config] at h
    split_ifs at h with h1 h2 h3 h4 h5 h6 h7 h8 h9
    exact ⟨not_le.mp h1, not_le.mp h2, not_le.mp h3, not_le.mp h4, not_le.mp h5,
      not_lt.mp h6, not_lt.mp h7, not_le.mp h8, not_le.mp h9⟩
  · rintro ⟨p1, p2, p3, p4, p5, p6, p7, p8, p9⟩
    rw [validate_config]
    rw [if_neg (not_le.mpr p1), if_neg (not_le.mpr p2), if_neg (not_le.mpr p3),
        if_neg (not_le.mpr p4), if_neg (not_le.mpr p5), if_neg (not_lt.mpr p6),
        if_neg (not_lt.mpr p7), if_neg (not_le.mpr p8), if_neg (not_le.mpr p9)]

/-- Claim C8 counterexample: a task record whose completion time is exactly
one hour before the purge — hence not older than the one-hour window, so by
the claim it must be retained — is removed by `cleanup_old_metrics`. -/
theorem cleanup_boundary_removed_C8 :
    boundaryMonitor.task_metrics "t1" = some boundaryRecord ∧
    boundaryRecord.end_time = some (10000 - 3600) ∧
    ¬ ((10000 : ℚ) - 3600 < 10000 - 3600) ∧
    (cleanup_old_metrics 10000 boundaryMonitor).task_metrics "t1" = none := by
  refine ⟨rfl, by norm_num [boundaryRecord], by norm_num, ?_⟩
  norm_num [cleanup_old_metrics, boundaryMonitor, boundaryRecord]

/-- Claim C8 (amended): `cleanup_old_metrics` at time `now` removes exactly
the task records whose completion time is at least one hour old
(`end_time ≤ now - 3600`) and the performance samples at least that old,
retaining records that never completed, records completed strictly within
the hour, and samples strictly within the hour; in particular a record
completed 2 hours before the purge is removed and a record completed 50
seconds before is retained. -/
theorem cleanup_old_metrics_spec_C8 :
    ∀ (now : ℚ) (mon : MonitorState),
      (∀ (tid : String) (m : TaskMetrics),
          ((cleanup_old_metrics now mon).task_metrics tid = some m ↔
            mon.task_metrics tid = some m ∧
              (m.end_time = none ∨ ∃ t, m.end_time = some t ∧ now - 3600 < t)))
    ∧ (∀ s : PerformanceMetrics, s ∈ mon.metrics_history →
          (s ∈ (cleanup_old_metrics now mon).metrics_history ↔
            now - 3600 < s.timestamp)) := by
  intro now mon
  constructor
  · intro tid m
    simp only [cleanup_old_metrics]
    cases hm : mon.task_metrics tid with
    | none => simp
    | some m0 =>
      cases he : m0.end_time with
      | none =>
        simp only [he]
        constructor
        · intro h
          obtain rfl := Option.some_injective _ h
          exact ⟨rfl, Or.inl he⟩
        · rintro ⟨hsome, _⟩
          obtain rfl := Option.some_injective _ hsome
          rfl
      | some t =>
        simp only [he]
        by_cases hcut : now - 3600 < t
        · simp only [if_pos hcut]
          constructor
          · intro h
            obtain rfl := Option.some_injective _ h
            exact ⟨rfl, Or.inr ⟨t, he, hcut⟩⟩
          · rintro ⟨hsome, _⟩
            obtain rfl := Option.some_injective _ hsome
            rfl
        · simp only [if_neg hcut]
          constructor
          · intro h
            cases h
          · rintro ⟨hsome, hor⟩
            obtain rfl := Option.some_injective _ hsome
            rcases hor with hnone | ⟨t2, ht2, hc2⟩
            · rw [hnone] at he
              cases he
            · rw [ht2] at he
              obtain rfl := Option.some_injective _ he.symm
              exact absurd hc2 hcut
  · intro s hs
    simp [cleanup_old_metrics, List.mem_filter, hs]

/-- Claim C8 witness: purging `scenarioMonitor` at time 10000 removes the
record completed at 2800 (2 hours old) and the sample taken at 2800, while
retaining the record completed at 9950 (50 seconds old). -/
theorem cleanup_old_metrics_spec_C8_witness :
    (cleanup_old_metrics 10000 scenarioMonitor).task_metrics "old" = none ∧
    (cleanup_old_metrics 10000 scenarioMonitor).task_metrics "fresh" = some freshRecord ∧
    staleSample ∉ (cleanup_old_metrics 10000 scenarioMonitor).metrics_history := by
  have h := cleanup_old_metrics_spec_C8 10000 scenarioMonitor
  refine ⟨?_, ?_, ?_⟩
  · cases hx : (cleanup_old_metrics 10000 scenarioMonitor).task_metrics "old" with
    | none => rfl
    | some m =>
      obtain ⟨hsome, hor⟩ := (h.1 "old" m).mp hx
      obtain rfl := Option.some_injective _
        (show some staleRecord = some m from hsome.symm ▸ rfl)
      rcases hor with hnone | ⟨t, ht, hc⟩
      · cases hnone
      · rw [show staleRecord.end_time = some 2800 from rfl] at ht
        obtain rfl := Option.some_injective _ ht.symm
        norm_num at hc
  · exact (h.1 "fresh" freshRecord).mpr ⟨rfl, Or.inr ⟨9950, rfl, by norm_num⟩⟩
  · intro hmem
    have := (h.2 staleSample (by simp [scenarioMonitor])).mp hmem
    rw [show staleSample.timestamp = 2800 from rfl] at this
    norm_num at this
